import Mathlib

/-!
Verification development for the portfolio beta dashboard (`app.py`).

The core module consists of: the quote resolver (`get_stock_data` plus the
static override table `KNOWN_BETAS`), the beta aggregator
(`calculate_portfolio_beta`, `get_risk_level`), and the persistence gateway
(`save_portfolio_data` / `load_portfolio_data`), together with the sidebar
add handler and the per-row delete handler.

Modelling choices:
- Prices, betas and cash are rationals (the source uses Python floats; the
  arithmetic identities at issue are exact, not rounding claims).
- Share counts are naturals (the UI widget enforces a non-negative integer).
- The provider reply (`yf.Ticker(t).info`) is a record of `Option` fields:
  `none` models an absent key. A transport/lookup failure of the provider is
  an `Except.error`; the source catches it (`except Exception`) and returns
  `None` from `get_stock_data`.
- The persisted JSON document is modelled structurally: a record whose two
  keys may each be absent (`Option`), wrapped in an outer `Option` where
  `none` models a missing or unparseable file. JSON round-trips the stored
  strings and numbers exactly, so the structural model is faithful.
- Python's `x or y` on numbers treats both `None` and `0`/`0.0` as falsy;
  `py_or` embeds exactly that.
-/

/-- One held instrument, the dict built in `get_stock_data` plus the
`shares` field the add handler sets (src/app.py lines 150-156, 282-283). -/
structure Position where
  ticker : String
  price : ℚ
  beta : ℚ
  name : String
  sector : String
  shares : ℕ
deriving DecidableEq

/-- The per-session state: `st.session_state.portfolio` and
`st.session_state.cash_balance` (src/app.py lines 128-131). -/
structure SessionState where
  portfolio : List Position
  cash_balance : ℚ
deriving DecidableEq

/-- `total_value = sum(stock['price'] * stock['shares'] for stock in portfolio)`
(src/app.py line 166, recomputed at line 323 as `stock_value`). -/
def total_value (portfolio : List Position) : ℚ :=
  (portfolio.map (fun stock => stock.price * (stock.shares : ℚ))).sum

/-- `calculate_portfolio_beta` (src/app.py lines 161-176): 0.0 on the empty
portfolio, 0.0 when the total stock value is zero, else the value-weighted
sum of the positions' betas. -/
def calculate_portfolio_beta (st : SessionState) : ℚ :=
  if st.portfolio.isEmpty then 0
  else if total_value st.portfolio = 0 then 0
  else
    (st.portfolio.map
      (fun stock =>
        (stock.price * (stock.shares : ℚ) / total_value st.portfolio) * stock.beta)).sum

/-- `get_risk_level` (src/app.py lines 178-188). The second component is the
CSS class the source pairs with each label; it encodes the severity
(`risk-low` = low, `risk-medium` = medium, `risk-high` = high). -/
def get_risk_level (beta : ℚ) : String × String :=
  if |beta| < 4/5 then ("Low Risk", "risk-low")
  else if |beta| < 6/5 then ("Neutral Risk", "risk-medium")
  else if |beta| < 2 then ("Higher Risk", "risk-medium")
  else ("High Risk", "risk-high")

/-- The risk table exactly as the spec words it (§4.3): lower-inclusive,
upper-exclusive buckets over a non-negative magnitude. Only ever applied to
`|beta|`, which is non-negative. -/
def classifyRisk_spec (x : ℚ) : String × String :=
  if 0 ≤ x ∧ x < 4/5 then ("Low Risk", "risk-low")
  else if 4/5 ≤ x ∧ x < 6/5 then ("Neutral Risk", "risk-medium")
  else if 6/5 ≤ x ∧ x < 2 then ("Higher Risk", "risk-medium")
  else ("High Risk", "risk-high")

/-- The persisted JSON document (src/app.py lines 58-61, spec §6): two keys,
each of which a hand-edited or older file may lack. `none` models an absent
key. -/
structure SavedDoc where
  portfolio : Option (List Position)
  cash_balance : Option ℚ
deriving DecidableEq

/-- `save_portfolio_data` (src/app.py lines 55-65): serializes the whole
store into the document `{'portfolio': ..., 'cash_balance': ...}`; both keys
are always written. -/
def save_portfolio_data (st : SessionState) : SavedDoc :=
  { portfolio := some st.portfolio, cash_balance := some st.cash_balance }

/-- `load_portfolio_data` (src/app.py lines 67-76). The argument's `none`
models a missing file or one `json.load` cannot parse (the source's
`except` arm); `some d` models a parsed document. The source returns
`data.get('portfolio', [])` and `data.get('cash_balance', 0.0)`. The
function is total: no execution raises to the caller. -/
def load_portfolio_data (doc : Option SavedDoc) : List Position × ℚ :=
  match doc with
  | none => ([], 0)
  | some d => (d.portfolio.getD [], d.cash_balance.getD 0)

/-- The static override table `KNOWN_BETAS` (src/app.py lines 79-125),
as the association list of its entries in source order. -/
def KNOWN_BETAS : List (String × ℚ) :=
  [("TQQQ", 298/100), ("UPRO", 295/100), ("TECL", 297/100), ("SOXL", 315/100),
   ("FAS", 288/100), ("TNA", 292/100), ("LABU", 305/100), ("NUGT", 320/100),
   ("SQQQ", -298/100), ("SPXU", -295/100), ("TECS", -297/100), ("SOXS", -315/100),
   ("FAZ", -288/100), ("TZA", -292/100),
   ("QLD", 2), ("SSO", 198/100), ("UWM", 195/100),
   ("QQQ", 105/100), ("SPY", 1), ("IWM", 115/100), ("DIA", 95/100),
   ("VTI", 1), ("VOO", 1), ("AGG", 5/100), ("TLT", -15/100), ("GLD", 10/100),
   ("NVDA", 168/100), ("TSLA", 229/100), ("META", 118/100), ("AAPL", 124/100),
   ("MSFT", 89/100), ("GOOGL", 105/100), ("AMZN", 115/100), ("NFLX", 135/100),
   ("AMD", 182/100), ("INTC", 78/100)]

/-- The fields of `yf.Ticker(t).info` the source reads; `none` models an
absent key (spec §6: any of them may be absent). -/
structure ProviderInfo where
  currentPrice : Option ℚ
  regularMarketPrice : Option ℚ
  previousClose : Option ℚ
  beta : Option ℚ
  shortName : Option String
  sector : Option String
deriving DecidableEq

/-- Python's `x or y` over an optional number: `None` and `0` are falsy, so
a present zero falls through to `y` (src/app.py lines 140-144). -/
def py_or (x : Option ℚ) (y : ℚ) : ℚ :=
  match x with
  | none => y
  | some p => if p = 0 then y else p

/-- The resolved quote record `get_stock_data` returns on success
(src/app.py lines 150-156); `shares` is attached later by the add handler. -/
structure StockData where
  ticker : String
  price : ℚ
  beta : ℚ
  name : String
  sector : String
deriving DecidableEq

/-- `get_stock_data` (src/app.py lines 133-159). `resp` is the provider
call: `Except.error ()` models any raised transport/lookup failure, which
the source catches, reports via `st.error`, and converts to `None`. On a
reply, price is the Python `or`-chain over current / regular-market /
previous-close / 0; beta is `KNOWN_BETAS.get(ticker.upper(), info.get('beta', 1.0))`. -/
def get_stock_data (ticker : String) (resp : Except Unit ProviderInfo) :
    Option StockData :=
  match resp with
  | Except.error _ => none
  | Except.ok info =>
      some
        { ticker := ticker.toUpper
          price := py_or info.currentPrice
                    (py_or info.regularMarketPrice (py_or info.previousClose 0))
          beta := (KNOWN_BETAS.lookup ticker.toUpper).getD (info.beta.getD 1)
          name := info.shortName.getD ticker
          sector := info.sector.getD "Unknown" }

/-- The user-visible error conditions of the spec's taxonomy (§7) that the
embedded handlers can report. -/
inductive PortfolioError where
  | invalidInput
  | quoteUnavailable
  | indexOutOfRange
deriving DecidableEq

/-- The sidebar add handler (src/app.py lines 277-289): on an empty ticker
it only reports an input error; otherwise it resolves the quote, and on
success appends the position with the user-chosen share count and beta
override, else reports `QuoteUnavailable` and leaves the state alone.
The second component is the error reported, if any. -/
def add_stock_handler (ticker_input : String) (resp : Except Unit ProviderInfo)
    (shares_input : ℕ) (beta_input : ℚ) (st : SessionState) :
    SessionState × Option PortfolioError :=
  if ticker_input = "" then (st, some PortfolioError.invalidInput)
  else
    match get_stock_data ticker_input resp with
    | none => (st, some PortfolioError.quoteUnavailable)
    | some d =>
        ({ st with
            portfolio := st.portfolio ++
              [{ ticker := d.ticker, price := d.price, beta := beta_input,
                 name := d.name, sector := d.sector, shares := shares_input }] },
         none)

/-- Python's `list.pop(idx)` for a non-negative index, as issued by the
per-row delete handler (src/app.py line 400): removes and returns the entry
at `idx` when in range, else raises `IndexError` with the list untouched.
(The handler's indices come from `enumerate`, hence are non-negative.) -/
def list_pop (l : List Position) (idx : ℕ) :
    Except PortfolioError (List Position × Position) :=
  match l.get? idx with
  | some x => Except.ok (l.take idx ++ l.drop (idx + 1), x)
  | none => Except.error PortfolioError.indexOutOfRange

/-- The per-row delete handler (src/app.py lines 398-402) as a state
transformer: `st.session_state.portfolio.pop(idx)` then save. The second
component is the error condition, if any; on error the state is returned
unchanged. -/
def removeAt (st : SessionState) (idx : ℕ) : SessionState × Option PortfolioError :=
  match list_pop st.portfolio idx with
  | Except.ok (rest, _) => ({ st with portfolio := rest }, none)
  | Except.error e => (st, some e)

/-- The price precedence exactly as claim C7 words it: the current price if
present, else the regular-market price, else the previous close, else 0. -/
def price_as_claimed (info : ProviderInfo) : ℚ :=
  info.currentPrice.getD (info.regularMarketPrice.getD (info.previousClose.getD 0))

/-- A field that counts as usable for the Python `or`-chain: present and
nonzero (Python treats a present `0`/`0.0` as falsy). -/
def present_and_nonzero (x : Option ℚ) : Option ℚ :=
  match x with
  | none => none
  | some p => if p = 0 then none else some p

/-- The amended price precedence: the first of current price,
regular-market price, previous close that is present and nonzero; else 0. -/
def price_as_amended (info : ProviderInfo) : ℚ :=
  match present_and_nonzero info.currentPrice with
  | some p => p
  | none =>
      match present_and_nonzero info.regularMarketPrice with
      | some p => p
      | none =>
          match present_and_nonzero info.previousClose with
          | some p => p
          | none => 0

/-- The scenario portfolio from spec §8: one TQQQ lot at 60.00 x 100 with
beta 2.98, cash 1000.00. -/
def examplePortfolio : SessionState :=
  { portfolio := [{ ticker := "TQQQ", price := 60, beta := 298/100,
                    name := "ProShares UltraPro QQQ", sector := "Unknown",
                    shares := 100 }],
    cash_balance := 1000 }

/-- A nonempty portfolio whose only position is priced at zero. -/
def zeroPricePortfolio : SessionState :=
  { portfolio := [{ ticker := "AAPL", price := 0, beta := 124/100,
                    name := "Apple Inc.", sector := "Technology",
                    shares := 10 }],
    cash_balance := 50 }

/-- The empty store with zero cash. -/
def emptyState : SessionState := { portfolio := [], cash_balance := 0 }

/-- A provider reply whose current price is present but zero while the
regular-market price is 5. -/
def zeroCurrentPriceInfo : ProviderInfo :=
  { currentPrice := some 0, regularMarketPrice := some 5, previousClose := none,
    beta := none, shortName := none, sector := none }

/-- Claim C1: whenever the total stock market value is strictly positive,
`calculate_portfolio_beta` returns the value-weighted mean of the positions'
betas, i.e. the sum over positions of (price * shares / total) * beta. -/
theorem calculate_portfolio_beta_weighted_mean (st : SessionState)
    (h : 0 < total_value st.portfolio) :
    calculate_portfolio_beta st =
      (st.portfolio.map
        (fun stock =>
          (stock.price * (stock.shares : ℚ) / total_value st.portfolio) *
            stock.beta)).sum := by
  unfold calculate_portfolio_beta
  split_ifs with h1 h2
  · exfalso
    rw [List.isEmpty_iff] at h1
    rw [h1] at h
    simp [total_value] at h
  · exact absurd h2 (ne_of_gt h)
  · rfl

/-- Witness for C1 at the spec §8 scenario portfolio. -/
theorem calculate_portfolio_beta_weighted_mean_witness :
    0 < total_value examplePortfolio.portfolio ∧
    calculate_portfolio_beta examplePortfolio =
      (examplePortfolio.portfolio.map
        (fun stock =>
          (stock.price * (stock.shares : ℚ) / total_value examplePortfolio.portfolio) *
            stock.beta)).sum :=
  ⟨by norm_num [total_value, examplePortfolio],
   calculate_portfolio_beta_weighted_mean examplePortfolio
     (by norm_num [total_value, examplePortfolio])⟩

/-- Claim C2: whenever the total stock market value is zero — in particular
the empty portfolio, or any portfolio whose every position has price times
shares equal to zero — `calculate_portfolio_beta` returns exactly 0. -/
theorem calculate_portfolio_beta_zero_total (st : SessionState)
    (h : total_value st.portfolio = 0) :
    calculate_portfolio_beta st = 0 := by
  unfold calculate_portfolio_beta
  split_ifs <;> rfl

/-- Witness for C2 at a nonempty portfolio whose single position is priced
at zero. -/
theorem calculate_portfolio_beta_zero_total_witness :
    total_value zeroPricePortfolio.portfolio = 0 ∧
    calculate_portfolio_beta zeroPricePortfolio = 0 :=
  ⟨by norm_num [total_value, zeroPricePortfolio],
   calculate_portfolio_beta_zero_total zeroPricePortfolio
     (by norm_num [total_value, zeroPricePortfolio])⟩

/-- Claim C3: `get_risk_level` depends only on |beta| and agrees with the
spec table of lower-inclusive, upper-exclusive buckets ([0,0.8) Low / low,
[0.8,1.2) Neutral / medium, [1.2,2) Higher / medium, [2,∞) High / high,
severities encoded as the risk-low / risk-medium / risk-high classes); in
particular beta = 0.8 exactly classifies as Neutral Risk. -/
theorem get_risk_level_table (b : ℚ) :
    get_risk_level b = classifyRisk_spec |b| ∧
    get_risk_level (4/5) = ("Neutral Risk", "risk-medium") := by
  constructor
  · have h0 : (0:ℚ) ≤ |b| := abs_nonneg b
    unfold get_risk_level classifyRisk_spec
    rcases lt_or_le |b| (4/5) with h1 | h1
    · rw [if_pos h1, if_pos (show (0:ℚ) ≤ |b| ∧ |b| < 4/5 from ⟨h0, h1⟩)]
    · have n1 : ¬(|b| < 4/5) := not_lt.mpr h1
      have n1s : ¬((0:ℚ) ≤ |b| ∧ |b| < 4/5) := fun hc => n1 hc.2
      rcases lt_or_le |b| (6/5) with h2 | h2
      · rw [if_neg n1, if_neg n1s, if_pos h2,
            if_pos (show (4:ℚ)/5 ≤ |b| ∧ |b| < 6/5 from ⟨h1, h2⟩)]
      · have n2 : ¬(|b| < 6/5) := not_lt.mpr h2
        have n2s : ¬((4:ℚ)/5 ≤ |b| ∧ |b| < 6/5) := fun hc => n2 hc.2
        rcases lt_or_le |b| 2 with h3 | h3
        · rw [if_neg n1, if_neg n1s, if_neg n2, if_neg n2s, if_pos h3,
              if_pos (show (6:ℚ)/5 ≤ |b| ∧ |b| < 2 from ⟨h2, h3⟩)]
        · have n3 : ¬(|b| < 2) := not_lt.mpr h3
          have n3s : ¬((6:ℚ)/5 ≤ |b| ∧ |b| < 2) := fun hc => n3 hc.2
          rw [if_neg n1, if_neg n1s, if_neg n2, if_neg n2s, if_neg n3, if_neg n3s]
  · have habs : |(4/5 : ℚ)| = 4/5 := abs_of_nonneg (by norm_num)
    unfold get_risk_level
    rw [habs, if_neg (by norm_num), if_pos (by norm_num)]

/-- Claim C4: loading back the document written for a state reproduces its
position list and cash balance exactly, for any valid state (non-negative
cash), the empty portfolio included. -/
theorem save_load_roundtrip (st : SessionState) (_h : 0 ≤ st.cash_balance) :
    load_portfolio_data (some (save_portfolio_data st)) =
      (st.portfolio, st.cash_balance) := rfl

/-- Witness for C4 at the empty portfolio with zero cash. -/
theorem save_load_roundtrip_witness :
    0 ≤ emptyState.cash_balance ∧
    load_portfolio_data (some (save_portfolio_data emptyState)) =
      (emptyState.portfolio, emptyState.cash_balance) :=
  ⟨by norm_num [emptyState], save_load_roundtrip emptyState (by norm_num [emptyState])⟩

/-- Claim C5: `load_portfolio_data` is a total function (never raises); a
missing or unparseable document yields the empty list and cash 0, and in a
parsed document a missing portfolio key defaults to the empty list and a
missing cash key defaults to 0. -/
theorem load_portfolio_data_defaults (d : SavedDoc) :
    load_portfolio_data none = ([], 0) ∧
    (d.portfolio = none → (load_portfolio_data (some d)).1 = []) ∧
    (d.cash_balance = none → (load_portfolio_data (some d)).2 = 0) := by
  refine ⟨rfl, ?_, ?_⟩
  · intro h
    simp [load_portfolio_data, h]
  · intro h
    simp [load_portfolio_data, h]

/-- Witness for C5 at the document lacking both keys. -/
theorem load_portfolio_data_defaults_witness :
    load_portfolio_data none = ([], 0) ∧
    (load_portfolio_data (some ⟨none, none⟩)).1 = [] ∧
    (load_portfolio_data (some ⟨none, none⟩)).2 = 0 :=
  ⟨(load_portfolio_data_defaults ⟨none, none⟩).1,
   (load_portfolio_data_defaults ⟨none, none⟩).2.1 rfl,
   (load_portfolio_data_defaults ⟨none, none⟩).2.2 rfl⟩

/-- Claim C6: the beta the resolver attaches follows the precedence: the
static override table keyed by the uppercased ticker first, else the
provider's reported beta when present, else 1. -/
theorem get_stock_data_beta_precedence (t : String) (info : ProviderInfo) :
    (get_stock_data t (Except.ok info)).map StockData.beta =
      some (match KNOWN_BETAS.lookup t.toUpper with
            | some b => b
            | none =>
                match info.beta with
                | some b => b
                | none => 1) := by
  cases hl : KNOWN_BETAS.lookup t.toUpper with
  | some b => simp [get_stock_data, hl]
  | none =>
      cases hb : info.beta with
      | some b => simp [get_stock_data, hl, hb]
      | none => simp [get_stock_data, hl, hb]

/-- Counterexample to claim C7 as stated: with a present-but-zero current
price of 0 and a regular-market price of 5, the claim's precedence ("the
current price if present") gives 0, but the source's Python `or`-chain
skips the falsy 0 and returns 5. -/
theorem get_stock_data_price_claim_counterexample :
    (get_stock_data "XYZ" (Except.ok zeroCurrentPriceInfo)).map StockData.price ≠
      some (price_as_claimed zeroCurrentPriceInfo) := by
  simp [get_stock_data, zeroCurrentPriceInfo, py_or, price_as_claimed]

/-- Claim C7 as amended: the resolver's price is the first of the current
price, the regular-market price, and the previous close that is present
and nonzero; else 0. -/
theorem get_stock_data_price_precedence (t : String) (info : ProviderInfo) :
    (get_stock_data t (Except.ok info)).map StockData.price =
      some (price_as_amended info) := by
  obtain ⟨c, r, pc, b, n, sec⟩ := info
  cases c <;> cases r <;> cases pc <;>
    simp [get_stock_data, price_as_amended, present_and_nonzero, py_or] <;>
    split_ifs <;> simp_all

/-- Claim C8: when quote resolution fails (the provider raises), the add
handler reports `QuoteUnavailable` and returns the session state exactly
unchanged — no position is appended. -/
theorem add_stock_handler_failure (t : String) (shares_input : ℕ)
    (beta_input : ℚ) (st : SessionState) (h : t ≠ "") :
    add_stock_handler t (Except.error ()) shares_input beta_input st =
      (st, some PortfolioError.quoteUnavailable) := by
  simp [add_stock_handler, get_stock_data, h]

/-- Witness for C8 at a concrete unresolvable ticker and the empty state. -/
theorem add_stock_handler_failure_witness :
    ("ZZZZ" : String) ≠ "" ∧
    add_stock_handler "ZZZZ" (Except.error ()) 10 1 emptyState =
      (emptyState, some PortfolioError.quoteUnavailable) :=
  ⟨by decide, add_stock_handler_failure "ZZZZ" 10 1 emptyState (by decide)⟩

/-- Claim C9: deleting at an index at or beyond the position count reports
`IndexOutOfRange` and leaves the state exactly unchanged; deleting at a
valid index removes exactly that entry, shifting the suffix down by one. -/
theorem removeAt_spec (st : SessionState) (idx : ℕ) :
    removeAt st idx =
      if idx < st.portfolio.length then
        ({ st with
            portfolio := st.portfolio.take idx ++ st.portfolio.drop (idx + 1) },
         none)
      else (st, some PortfolioError.indexOutOfRange) := by
  unfold removeAt list_pop
  rcases Nat.lt_or_ge idx st.portfolio.length with h | h
  · rw [List.get?_eq_get h, if_pos h]
  · rw [List.get?_eq_none.mpr h, if_neg (not_lt.mpr h)]

/-- Claim C10: the computed portfolio beta does not depend on the cash
balance: two states with the same position list get the same beta. -/
theorem calculate_portfolio_beta_cash_independent (s1 s2 : SessionState)
    (h : s1.portfolio = s2.portfolio) :
    calculate_portfolio_beta s1 = calculate_portfolio_beta s2 := by
  unfold calculate_portfolio_beta
  rw [h]

/-- Witness for C10 at two states differing only in cash. -/
theorem calculate_portfolio_beta_cash_independent_witness :
    (⟨[], 0⟩ : SessionState).portfolio = (⟨[], 5⟩ : SessionState).portfolio ∧
    calculate_portfolio_beta ⟨[], 0⟩ = calculate_portfolio_beta ⟨[], 5⟩ :=
  ⟨rfl, calculate_portfolio_beta_cash_independent ⟨[], 0⟩ ⟨[], 5⟩ rfl⟩
